import Mathlib

/-!
Shallow embedding of `src/app.py` (PsychMajor/woundmodel), a Streamlit
single-page wound-care form application.  The remote chat-completion client
(`client.chat.completions.create`) is modelled as a function parameter of type
`Client`; a successful call is `Except.ok content` and a raised exception with
message `e` is `Except.error e`.  Streamlit's per-session mutable
`st.session_state` becomes the explicit record `SessionState`, and each button
handler becomes a pure function from the old state (plus the widget values the
framework passes at click time) to the new state together with the messages it
renders (`st.error` / `st.warning` / `st.success`) and whether it requested a
rerun.  The module-level script (terms gate at lines 141-156, page routing at
lines 158-453) is the function `runScript`.
-/

/-- One follow-up exchange, stored in
`st.session_state.conversation_history` (app.py lines 438-441):
a dict with keys `question` and `answer`. -/
structure QAPair where
  question : String
  answer : String
deriving Repr, DecidableEq

/-- The dict stored in `st.session_state.assessment_data` (app.py lines
297-307).  The image is its raw bytes (`uploaded_file.getvalue()`), a list of
byte values. -/
structure AssessmentData where
  assessment : String
  image : List Nat
  supplies : List String
  setting : String
  expertise : String
  willingness : String
  frequency : String
  infected : String
  moisture : String
deriving Repr, DecidableEq

/-- The per-session mutable state kept in `st.session_state`.
`widget_state` models the framework-owned widget values (the checkbox /
selectbox / radio entries keyed `supply_...`, `other_supplies_input`, ...):
no handler in app.py ever writes or deletes these keys. -/
structure SessionState where
  terms_accepted : Bool
  current_page : String
  assessment_data : Option AssessmentData
  conversation_history : List QAPair
  continue_conversation : Bool
  widget_state : List (String × String)
deriving Repr, DecidableEq

/-- Initial session state: app.py lines 84-91 set `terms_accepted := False`,
`current_page := "input"`, `assessment_data := None`; lines 366-369 default
`conversation_history := []` and `continue_conversation := True`. -/
def initialState : SessionState :=
  { terms_accepted := false
    current_page := "input"
    assessment_data := none
    conversation_history := []
    continue_conversation := true
    widget_state := [] }

/-- One part of a chat message's `content` array (app.py lines 54-67):
either a `text` part or an `image_url` part. -/
inductive ContentPart where
  | text (s : String)
  | image_url (url : String)
deriving Repr, DecidableEq

/-- A chat message: `role` and `content` parts. -/
structure ChatMessage where
  role : String
  content : List ContentPart
deriving Repr, DecidableEq

/-- The arguments of one `client.chat.completions.create(...)` call:
model name, messages, and `max_tokens`. -/
structure ChatRequest where
  model : String
  messages : List ChatMessage
  max_tokens : Nat
deriving Repr, DecidableEq

/-- The remote OpenAI client, as an oracle: `Except.ok content` models
`response.choices[0].message.content`, `Except.error e` models a raised
exception whose `str()` is `e`. -/
def Client : Type := ChatRequest → Except String String

/-- The base64 alphabet used by `base64.b64encode`. -/
def b64Alphabet : List Char :=
  String.toList "ABCDEFGHIJKLMNOPQRSTUVWXYZabcdefghijklmnopqrstuvwxyz0123456789+/"

/-- The base64 digit for a 6-bit value. -/
def b64Char (n : Nat) : Char := b64Alphabet.getD n (Char.ofNat 65)

/-- `base64.b64encode` on a byte list (app.py line 24), including `=` padding. -/
def b64encode : List Nat → String
  | [] => ""
  | [a] =>
      String.mk [b64Char (a / 4), b64Char (a % 4 * 16)] ++ "=="
  | [a, b] =>
      String.mk [b64Char (a / 4), b64Char (a % 4 * 16 + b / 16),
                 b64Char (b % 16 * 4)] ++ "="
  | a :: b :: c :: rest =>
      String.mk [b64Char (a / 4), b64Char (a % 4 * 16 + b / 16),
                 b64Char (b % 16 * 4 + c / 64), b64Char (c % 64)]
        ++ b64encode rest

/-- Single-quote character, written via its code point. -/
def singleQuote : String := String.singleton (Char.ofNat 39)

/-- Python `repr` of a string as it appears inside `str(list)`, for strings
without quotes or backslashes (the fixed supply labels contain none). -/
def pyRepr (s : String) : String := singleQuote ++ s ++ singleQuote

/-- Python `str()` of a list of strings, as produced by the f-string
interpolation `{supplies}` in the prompt (app.py line 34). -/
def pyListRepr (xs : List String) : String :=
  "[" ++ String.intercalate ", " (xs.map pyRepr) ++ "]"

/-- The assessment prompt f-string of app.py lines 27-51, with the seven
structured fields interpolated. -/
def mkPrompt (supplies : List String)
    (setting expertise willingness frequency infected moisture : String) :
    String :=
  "\n    You are an educational AI assistant helping to identify visual features in wound images\n    for research and model development.\n\n    Your goal is to generate a step-by-step treatment plan **based on both the text context and the visible landmarks in the image.**\n\n    User-provided context:\n    - Supplies available: "
  ++ pyListRepr supplies
  ++ "\n    - Setting: " ++ setting
  ++ "\n    - Expertise-level: " ++ expertise
  ++ "\n    - Willing to visit hospital: " ++ willingness
  ++ "\n    - Frequency of clinic visits: " ++ frequency
  ++ "\n    - Wound infection status: " ++ infected
  ++ "\n    - Wound moisture: " ++ moisture
  ++ "\n\n    ### Instructions ###\n    1. Carefully examine **visual landmarkers** in the wound image — e.g., color changes, necrotic tissue, swelling, drainage, redness, or exposed structures.\n    2. Incorporate those landmarks explicitly into the treatment plan (e.g., \"Clean around the dark necrotic edge\" or \"Protect the red granulating area with Xeroform\").\n    3. Use only supplies the user has available. Do not use supplies if its excessive for the severity of the wound.\n    4. Do not use em dashes (—), en dashes (–), or hyphens (-) for separating phrases; instead use commas or semicolons.\n    5. Carefully consider the expertise-level when choosing the language for the instructions\n    6. Keep your output as a **numbered list** (1., 2., 3., etc.) with concise, actionable wound-care steps.\n    7. Places spaces between each step for readability.\n\n    "

/-- The single chat request built by `process_image` (app.py lines 54-75):
model `gpt-4.1`, one user message with the text prompt and the base64 image
data URI, `max_tokens = 1000`. -/
def assessmentRequest (image_bytes : List Nat) (supplies : List String)
    (setting expertise willingness frequency infected moisture : String) :
    ChatRequest :=
  { model := "gpt-4.1"
    messages :=
      [{ role := "user"
         content :=
           [ContentPart.text
              (mkPrompt supplies setting expertise willingness frequency
                infected moisture),
            ContentPart.image_url
              ("data:image/jpeg;base64," ++ b64encode image_bytes)] }]
    max_tokens := 1000 }

/-- `process_image` (app.py lines 21-78): builds the prompt and messages,
issues one chat-completion call, returns the response text on success and the
string `"⚠️ Error calling OpenAI API: {e}"` when the call raises. -/
def process_image (client : Client) (image_bytes : List Nat)
    (supplies : List String)
    (setting expertise willingness frequency infected moisture : String) :
    String :=
  match client (assessmentRequest image_bytes supplies setting expertise
      willingness frequency infected moisture) with
  | Except.ok content => content
  | Except.error e => "⚠️ Error calling OpenAI API: " ++ e

/-- Result of the Generate Assessment button handler: the new session state,
the `st.error` messages rendered, and whether `st.rerun()` was requested. -/
structure SubmitOutcome where
  state : SessionState
  errors : List String
  rerun : Bool
deriving Repr, DecidableEq

/-- The state/rerun produced by the validated branch of the Generate
Assessment handler (app.py lines 285-316), parameterised by the string
`process_image` returned: stores `assessment_data`, switches
`current_page` to `"results"`, resets `conversation_history` to `[]` and
`continue_conversation` to `True`, renders no error, requests a rerun. -/
def submitSuccess (st : SessionState) (image_bytes : List Nat)
    (supplies : List String)
    (setting expertise willingness frequency infected moisture : String)
    (assessment : String) : SubmitOutcome :=
  { state :=
      { st with
        assessment_data := some
          { assessment := assessment
            image := image_bytes
            supplies := supplies
            setting := setting
            expertise := expertise
            willingness := willingness
            frequency := frequency
            infected := infected
            moisture := moisture }
        current_page := "results"
        conversation_history := []
        continue_conversation := true }
    errors := []
    rerun := true }

/-- The Generate Assessment button handler (app.py lines 279-316):
`uploaded_file is None` → error, no state change; `not supplies` → error,
no state change; otherwise call `process_image` and take the success branch. -/
def generateHandler (client : Client) (st : SessionState)
    (uploaded_file : Option (List Nat)) (supplies : List String)
    (setting expertise willingness frequency infected moisture : String) :
    SubmitOutcome :=
  match uploaded_file with
  | none =>
      { state := st, errors := ["Please upload an image first."], rerun := false }
  | some file =>
      if supplies.isEmpty then
        { state := st
          errors := ["Please select at least one available supply."]
          rerun := false }
      else
        submitSuccess st file supplies setting expertise willingness frequency
          infected moisture
          (process_image client file supplies setting expertise willingness
            frequency infected moisture)

/-- One Q/A segment of the follow-up context (app.py lines 414-415):
`"Q{i+1}: {question}\n" + "A{i+1}: {answer}\n\n"`. -/
def qaSeg (i : Nat) (exchange : QAPair) : String :=
  "Q" ++ toString (i + 1) ++ ": " ++ exchange.question ++ "\n"
    ++ "A" ++ toString (i + 1) ++ ": " ++ exchange.answer ++ "\n\n"

/-- The `for i, exchange in enumerate(...)` accumulation of app.py lines
413-415, starting at index `i`. -/
def historyBlock : Nat → List QAPair → String
  | _, [] => ""
  | i, exchange :: rest => qaSeg i exchange ++ historyBlock (i + 1) rest

/-- The context string of app.py lines 410-415: the original assessment,
then, when the history is non-empty, `"Previous conversation:\n"` and every
prior exchange in order. -/
def buildContext (assessment : String) (history : List QAPair) : String :=
  let context := "Original assessment:\n\n" ++ assessment ++ "\n\n"
  if history.isEmpty then context
  else context ++ "Previous conversation:\n" ++ historyBlock 0 history

/-- The fixed instruction appended after the current question
(app.py lines 423-424). -/
def followInstruction : String :=
  "Please answer the question clearly, referencing the assessment and previous conversation where helpful. Be concise and actionable. Make answer only paragraph long maximum."

/-- The full message content of the follow-up request (app.py lines 417-427):
context, then `"Current question: {q}\n\n"`, then the fixed instruction. -/
def followContent (context question : String) : String :=
  context ++ "Current question: " ++ question ++ "\n\n" ++ followInstruction

/-- The follow-up chat request (app.py lines 429-433): model `gpt-4.1`, one
text-only user message, `max_tokens = 500`. -/
def followRequest (content : String) : ChatRequest :=
  { model := "gpt-4.1"
    messages := [{ role := "user", content := [ContentPart.text content] }]
    max_tokens := 500 }

/-- Python `str.strip()` (app.py line 404) on the underlying character
list: drop whitespace from both ends.  ASCII whitespace
(`Char.isWhitespace`: space, tab, CR, LF) models Python's default strip
set. -/
def pyStrip (s : String) : String :=
  String.mk
    (((s.data.dropWhile Char.isWhitespace).reverse.dropWhile
        Char.isWhitespace).reverse)

/-- Result of the Ask button handler: new state, `st.warning` messages,
`st.error` messages, and whether a rerun was requested. -/
structure AskOutcome where
  state : SessionState
  warnings : List String
  errors : List String
  rerun : Bool
deriving Repr, DecidableEq

/-- The Ask button handler (app.py lines 403-450).  Guard: `not
followup_question or not followup_question.strip()` → warning, nothing else.
Otherwise build the context from `assessment` and the stored history, issue
the text-only call; on success append the new `{question, answer}` pair to
`conversation_history` and rerun; on exception render
`"⚠️ Error calling OpenAI API: {e}"` via `st.error` and leave the state
unchanged. -/
def askHandler (client : Client) (st : SessionState) (assessment : String)
    (followup_question : String) : AskOutcome :=
  if followup_question == "" || pyStrip followup_question == "" then
    { state := st
      warnings := ["Please enter a question before asking."]
      errors := []
      rerun := false }
  else
    match client (followRequest (followContent
        (buildContext assessment st.conversation_history) followup_question)) with
    | Except.ok response_text =>
        { state :=
            { st with conversation_history :=
                st.conversation_history
                  ++ [{ question := followup_question, answer := response_text }] }
          warnings := []
          errors := []
          rerun := true }
    | Except.error e =>
        { state := st
          warnings := []
          errors := ["⚠️ Error calling OpenAI API: " ++ e]
          rerun := false }

/-- The discrete user interaction driving one top-to-bottom run of the
script: which button (if any) was clicked, together with the widget values
the framework hands the handler at that moment. -/
inductive UiEvent where
  | noEvent
  | acceptTerms
  | declineTerms
  | generate (uploaded_file : Option (List Nat)) (supplies : List String)
      (setting expertise willingness frequency infected moisture : String)
  | back
  | ask (question : String)
  | finish
deriving Repr, DecidableEq

/-- Observable result of one top-to-bottom run of the script: the state it
leaves behind, which page bodies were reached, the messages rendered, and
whether the run ended in `st.stop()` or requested a rerun. -/
structure RunResult where
  state : SessionState
  shownTerms : Bool
  ranInputPage : Bool
  ranResultsPage : Bool
  errors : List String
  warnings : List String
  successes : List String
  stopped : Bool
  rerun : Bool
deriving Repr, DecidableEq

/-- One top-to-bottom run of the module-level script (app.py lines 141-453).
If `terms_accepted` is false, `show_terms` runs (accept sets the flag and
reruns, decline renders an error and stops) and then `st.stop()` at line 144
halts the run: the page-routing code at lines 158-453 is never reached.
Otherwise the run dispatches on `current_page`: the input page runs the
Generate Assessment handler when its button was clicked; the results page
handles Back to Input (lines 325-330), and, only when `assessment_data` is
set (line 347) and `continue_conversation` holds (line 380), Ask and
Finish. -/
def runScript (client : Client) (st : SessionState) (ev : UiEvent) : RunResult :=
  if st.terms_accepted = false then
    match ev with
    | UiEvent.acceptTerms =>
        { state := { st with terms_accepted := true }
          shownTerms := true, ranInputPage := false, ranResultsPage := false
          errors := [], warnings := [], successes := []
          stopped := false, rerun := true }
    | UiEvent.declineTerms =>
        { state := st
          shownTerms := true, ranInputPage := false, ranResultsPage := false
          errors := ["You must accept the terms to use this application."]
          warnings := [], successes := []
          stopped := true, rerun := false }
    | _ =>
        { state := st
          shownTerms := true, ranInputPage := false, ranResultsPage := false
          errors := [], warnings := [], successes := []
          stopped := true, rerun := false }
  else if st.current_page = "input" then
    match ev with
    | UiEvent.generate uploaded_file supplies setting expertise willingness
        frequency infected moisture =>
        let r := generateHandler client st uploaded_file supplies setting
          expertise willingness frequency infected moisture
        { state := r.state
          shownTerms := false, ranInputPage := true, ranResultsPage := false
          errors := r.errors, warnings := [], successes := []
          stopped := false, rerun := r.rerun }
    | _ =>
        { state := st
          shownTerms := false, ranInputPage := true, ranResultsPage := false
          errors := [], warnings := [], successes := []
          stopped := false, rerun := false }
  else if st.current_page = "results" then
    match ev with
    | UiEvent.back =>
        { state := { st with current_page := "input" }
          shownTerms := false, ranInputPage := false, ranResultsPage := true
          errors := [], warnings := [], successes := []
          stopped := false, rerun := true }
    | UiEvent.ask q =>
        match st.assessment_data with
        | some d =>
            if st.continue_conversation then
              let r := askHandler client st d.assessment q
              { state := r.state
                shownTerms := false, ranInputPage := false
                ranResultsPage := true
                errors := r.errors, warnings := r.warnings, successes := []
                stopped := false, rerun := r.rerun }
            else
              { state := st
                shownTerms := false, ranInputPage := false
                ranResultsPage := true
                errors := [], warnings := []
                successes := ["Thank you for using the wound assistant."]
                stopped := false, rerun := false }
        | none =>
            { state := st
              shownTerms := false, ranInputPage := false
              ranResultsPage := true
              errors := [], warnings := [], successes := []
              stopped := false, rerun := false }
    | UiEvent.finish =>
        match st.assessment_data with
        | some _ =>
            if st.continue_conversation then
              { state := { st with continue_conversation := false }
                shownTerms := false, ranInputPage := false
                ranResultsPage := true
                errors := [], warnings := []
                successes := ["Thank you for using the wound assistant."]
                stopped := false, rerun := true }
            else
              { state := st
                shownTerms := false, ranInputPage := false
                ranResultsPage := true
                errors := [], warnings := []
                successes := ["Thank you for using the wound assistant."]
                stopped := false, rerun := false }
        | none =>
            { state := st
              shownTerms := false, ranInputPage := false
              ranResultsPage := true
              errors := [], warnings := [], successes := []
              stopped := false, rerun := false }
    | _ =>
        match st.assessment_data with
        | some _ =>
            { state := st
              shownTerms := false, ranInputPage := false
              ranResultsPage := true
              errors := [], warnings := [], successes := []
              stopped := false, rerun := false }
        | none =>
            { state := st
              shownTerms := false, ranInputPage := false
              ranResultsPage := true
              errors := [], warnings := [], successes := []
              stopped := false, rerun := false }
  else
    { state := st
      shownTerms := false, ranInputPage := false, ranResultsPage := false
      errors := [], warnings := [], successes := []
      stopped := false, rerun := false }

/-- A client whose every call succeeds with text `t` (a mocked model). -/
def okClient (t : String) : Client := fun _ => Except.ok t

/-- A client whose every call raises an exception with message `e`. -/
def failClient (e : String) : Client := fun _ => Except.error e

/-- Concrete assessment data used to instantiate the theorems. -/
def wData : AssessmentData :=
  { assessment := "1. Clean the wound."
    image := [0, 1, 2]
    supplies := ["Sterile gauze pads"]
    setting := "Home"
    expertise := "Non-healthcare professional"
    willingness := "Yes"
    frequency := "Daily"
    infected := "No"
    moisture := "Dry" }

/-- A concrete session sitting on the results page with one stored
follow-up exchange. -/
def wResultsState : SessionState :=
  { terms_accepted := true
    current_page := "results"
    assessment_data := some wData
    conversation_history :=
      [{ question := "What if it gets red?", answer := "Seek care." }]
    continue_conversation := true
    widget_state := [("supply_Bandage", "True")] }

/-- String append is associative (proved on the underlying character lists). -/
theorem str_append_assoc (a b c : String) : a ++ b ++ c = a ++ (b ++ c) := by
  cases a with
  | mk la =>
    cases b with
    | mk lb =>
      cases c with
      | mk lc => exact congrArg String.mk (List.append_assoc la lb lc)

/-- C1: a submission with a missing image or an empty supplies list leaves
the session state untouched, renders a (non-empty) validation error, does
not rerun, and the outcome does not depend on the remote client at all, so
`process_image` is never invoked (app.py lines 279-283). -/
theorem c1_validation_no_call (client c₂ : Client) (st : SessionState)
    (uploaded_file : Option (List Nat)) (supplies : List String)
    (setting expertise willingness frequency infected moisture : String)
    (h : uploaded_file = none ∨ supplies = []) :
    (generateHandler client st uploaded_file supplies setting expertise
        willingness frequency infected moisture).state = st
    ∧ (generateHandler client st uploaded_file supplies setting expertise
        willingness frequency infected moisture).errors ≠ []
    ∧ (generateHandler client st uploaded_file supplies setting expertise
        willingness frequency infected moisture).rerun = false
    ∧ generateHandler c₂ st uploaded_file supplies setting expertise
        willingness frequency infected moisture
      = generateHandler client st uploaded_file supplies setting expertise
          willingness frequency infected moisture := by
  rcases h with h | h
  · subst h
    exact ⟨rfl, List.cons_ne_nil _ _, rfl, rfl⟩
  · subst h
    cases uploaded_file with
    | none => exact ⟨rfl, List.cons_ne_nil _ _, rfl, rfl⟩
    | some file => exact ⟨rfl, List.cons_ne_nil _ _, rfl, rfl⟩

/-- C1 witness: submitting with no image at the initial state. -/
theorem c1_witness :
    (generateHandler (okClient "mock") initialState none ["Bandage"] "Home"
        "Non-healthcare professional" "Yes" "Daily" "No" "Dry").state
      = initialState
    ∧ (generateHandler (okClient "mock") initialState none ["Bandage"] "Home"
        "Non-healthcare professional" "Yes" "Daily" "No" "Dry").errors ≠ []
    ∧ (generateHandler (okClient "mock") initialState none ["Bandage"] "Home"
        "Non-healthcare professional" "Yes" "Daily" "No" "Dry").rerun = false
    ∧ generateHandler (failClient "boom") initialState none ["Bandage"] "Home"
        "Non-healthcare professional" "Yes" "Daily" "No" "Dry"
      = generateHandler (okClient "mock") initialState none ["Bandage"] "Home"
          "Non-healthcare professional" "Yes" "Daily" "No" "Dry" :=
  c1_validation_no_call (okClient "mock") (failClient "boom") initialState none
    ["Bandage"] "Home" "Non-healthcare professional" "Yes" "Daily" "No" "Dry"
    (Or.inl rfl)

/-- C2: a validated submission (image present, supplies non-empty) whose
remote call returns `t` produces exactly the success outcome: `t` stored as
the assessment, `current_page` set to `"results"`, `conversation_history`
reset to `[]`, `continue_conversation` set, no errors, rerun requested
(app.py lines 285-316). -/
theorem c2_valid_submit (client : Client) (st : SessionState)
    (file : List Nat) (supplies : List String)
    (setting expertise willingness frequency infected moisture t : String)
    (h1 : supplies ≠ [])
    (h2 : client (assessmentRequest file supplies setting expertise
        willingness frequency infected moisture) = Except.ok t) :
    generateHandler client st (some file) supplies setting expertise
        willingness frequency infected moisture
      = submitSuccess st file supplies setting expertise willingness frequency
          infected moisture t := by
  cases supplies with
  | nil => exact absurd rfl h1
  | cons a as => simp [generateHandler, process_image, h2]

/-- C2 witness: the spec §8 scenario submitted at the initial state with a
mocked model. -/
theorem c2_witness :
    generateHandler (okClient "mocked model text") initialState (some [0, 1, 2])
        ["Sterile gauze pads"] "Home" "Non-healthcare professional" "Yes"
        "Daily" "No" "Dry"
      = submitSuccess initialState [0, 1, 2] ["Sterile gauze pads"] "Home"
          "Non-healthcare professional" "Yes" "Daily" "No" "Dry"
          "mocked model text" :=
  c2_valid_submit (okClient "mocked model text") initialState [0, 1, 2]
    ["Sterile gauze pads"] "Home" "Non-healthcare professional" "Yes" "Daily"
    "No" "Dry" "mocked model text" (by decide) rfl

/-- C3: a non-whitespace follow-up question whose remote call succeeds with
`ans` appends exactly the pair `{question, answer := ans}` at the end of the
stored history, leaving every prior entry and the rest of the state
unchanged, with no warning and no error (app.py lines 403-441). -/
theorem c3_followup_appends (client : Client) (st : SessionState)
    (assessment q ans : String)
    (h1 : pyStrip q ≠ "")
    (h2 : client (followRequest (followContent
        (buildContext assessment st.conversation_history) q))
      = Except.ok ans) :
    (askHandler client st assessment q).state
      = { st with conversation_history :=
            st.conversation_history ++ [{ question := q, answer := ans }] }
    ∧ (askHandler client st assessment q).warnings = []
    ∧ (askHandler client st assessment q).errors = [] := by
  have hq : q ≠ "" := by
    intro hqe
    rw [hqe] at h1
    exact h1 rfl
  simp [askHandler, hq, h1, h2]

/-- C3 witness: a second follow-up asked on top of one stored exchange. -/
theorem c3_witness :
    (askHandler (okClient "Twice daily.") wResultsState "1. Clean the wound."
        "How often reapply?").state
      = { wResultsState with conversation_history :=
            wResultsState.conversation_history
              ++ [{ question := "How often reapply?", answer := "Twice daily." }] }
    ∧ (askHandler (okClient "Twice daily.") wResultsState "1. Clean the wound."
        "How often reapply?").warnings = []
    ∧ (askHandler (okClient "Twice daily.") wResultsState "1. Clean the wound."
        "How often reapply?").errors = [] :=
  c3_followup_appends (okClient "Twice daily.") wResultsState
    "1. Clean the wound." "How often reapply?" "Twice daily." (by decide) rfl

/-- Appending the empty string on the left is the identity. -/
theorem str_empty_append (s : String) : "" ++ s = s := by
  cases s with
  | mk l => exact congrArg String.mk (List.nil_append l)

/-- The accumulated history block is the ordered concatenation, over the
enumerated history, of the per-exchange segments. -/
theorem historyBlock_enumFrom (h : List QAPair) :
    ∀ i, historyBlock i h
      = ((List.enumFrom i h).map (fun p => qaSeg p.1 p.2)).foldr
          (· ++ ·) "" := by
  induction h with
  | nil => intro i; rfl
  | cons e rest ih =>
      intro i
      simp only [historyBlock, List.enumFrom, List.map_cons, List.foldr_cons]
      rw [ih]

/-- C4: the full message content sent by the Ask handler is exactly the
original assessment text first, then (when prior exchanges exist) every
prior question/answer pair in original arrival order, and only then the new
question followed by the fixed instruction (app.py lines 409-427). -/
theorem c4_context_order (assessment : String) (history : List QAPair)
    (q : String) :
    followContent (buildContext assessment history) q
      = "Original assessment:\n\n"
        ++ (assessment
        ++ ("\n\n"
        ++ ((if history.isEmpty then ""
             else "Previous conversation:\n"
               ++ ((List.enumFrom 0 history).map
                    (fun p => qaSeg p.1 p.2)).foldr (· ++ ·) "")
        ++ ("Current question: "
        ++ (q
        ++ ("\n\n" ++ followInstruction)))))) := by
  cases history with
  | nil =>
      simp only [followContent, buildContext, List.isEmpty_nil, if_pos]
      simp only [str_append_assoc, str_empty_append]
  | cons e rest =>
      simp only [followContent, buildContext, List.isEmpty_cons,
        historyBlock_enumFrom, Bool.false_eq_true, if_false]
      simp only [str_append_assoc]

/-- C5: when every remote call raises with message `e`, `process_image`
returns the string `"⚠️ Error calling OpenAI API: {e}"` instead of
propagating the exception (app.py lines 69-78), and the Ask handler on any
non-whitespace question renders that same string via `st.error`, leaves the
state untouched, and does not rerun (app.py lines 449-450); both handlers
are total functions issuing the single call, so nothing is raised further
or retried. -/
theorem c5_remote_failure_to_string (client : Client) (st : SessionState)
    (image : List Nat) (supplies : List String)
    (setting expertise willingness frequency infected moisture : String)
    (assessment q e : String)
    (h1 : ∀ r, client r = Except.error e)
    (h2 : pyStrip q ≠ "") :
    process_image client image supplies setting expertise willingness
        frequency infected moisture
      = "⚠️ Error calling OpenAI API: " ++ e
    ∧ (askHandler client st assessment q).errors
      = ["⚠️ Error calling OpenAI API: " ++ e]
    ∧ (askHandler client st assessment q).state = st
    ∧ (askHandler client st assessment q).rerun = false := by
  have hq : q ≠ "" := by
    intro hqe
    rw [hqe] at h2
    exact h2 rfl
  refine ⟨?_, ?_, ?_, ?_⟩ <;> simp [process_image, askHandler, h1, hq, h2]

/-- C5 witness: a client that always raises `boom`, exercised on the
assessment call and on a concrete follow-up. -/
theorem c5_witness :
    process_image (failClient "boom") [0, 1, 2] ["Sterile gauze pads"] "Home"
        "Non-healthcare professional" "Yes" "Daily" "No" "Dry"
      = "⚠️ Error calling OpenAI API: " ++ "boom"
    ∧ (askHandler (failClient "boom") wResultsState "1. Clean the wound."
        "Is this infected?").errors
      = ["⚠️ Error calling OpenAI API: " ++ "boom"]
    ∧ (askHandler (failClient "boom") wResultsState "1. Clean the wound."
        "Is this infected?").state = wResultsState
    ∧ (askHandler (failClient "boom") wResultsState "1. Clean the wound."
        "Is this infected?").rerun = false :=
  c5_remote_failure_to_string (failClient "boom") wResultsState [0, 1, 2]
    ["Sterile gauze pads"] "Home" "Non-healthcare professional" "Yes" "Daily"
    "No" "Dry" "1. Clean the wound." "Is this infected?" "boom"
    (fun _ => rfl) (by decide)

/-- C6: an empty or whitespace-only follow-up question makes the Ask handler
return the state unchanged with exactly the warning
`"Please enter a question before asking."`, and the outcome does not depend
on the remote client, so no remote call is made (app.py lines 403-405). -/
theorem c6_empty_question_noop (client c₂ : Client) (st : SessionState)
    (assessment q : String) (h : pyStrip q = "") :
    askHandler client st assessment q
      = { state := st
          warnings := ["Please enter a question before asking."]
          errors := []
          rerun := false }
    ∧ askHandler c₂ st assessment q = askHandler client st assessment q := by
  constructor <;> simp [askHandler, h]

/-- C6 witness: a whitespace-only question at a state with stored history. -/
theorem c6_witness :
    askHandler (okClient "unused") wResultsState "1. Clean the wound." "   "
      = { state := wResultsState
          warnings := ["Please enter a question before asking."]
          errors := []
          rerun := false }
    ∧ askHandler (failClient "boom") wResultsState "1. Clean the wound." "   "
      = askHandler (okClient "unused") wResultsState "1. Clean the wound."
          "   " :=
  c6_empty_question_noop (okClient "unused") (failClient "boom") wResultsState
    "1. Clean the wound." "   " (by decide)

/-- C9: when the assessment call raises with message `e`, the Generate
Assessment handler still produces exactly the success-shaped outcome with
the error string stored as the assessment (page transitions to results,
follow-ups reset, no `st.error`, rerun requested); and for an arbitrary
client the outcome is that same shape around whatever string
`process_image` returns, so success and remote failure differ only in the
stored string (app.py lines 69-78 and 285-316). -/
theorem c9_failure_indistinguishable (client c₂ : Client) (st : SessionState)
    (file : List Nat) (supplies : List String)
    (setting expertise willingness frequency infected moisture e : String)
    (h1 : supplies ≠ [])
    (h2 : client (assessmentRequest file supplies setting expertise
        willingness frequency infected moisture) = Except.error e) :
    generateHandler client st (some file) supplies setting expertise
        willingness frequency infected moisture
      = submitSuccess st file supplies setting expertise willingness frequency
          infected moisture ("⚠️ Error calling OpenAI API: " ++ e)
    ∧ generateHandler c₂ st (some file) supplies setting expertise willingness
        frequency infected moisture
      = submitSuccess st file supplies setting expertise willingness frequency
          infected moisture
          (process_image c₂ file supplies setting expertise willingness
            frequency infected moisture) := by
  cases supplies with
  | nil => exact absurd rfl h1
  | cons a as => exact ⟨by simp [generateHandler, process_image, h2], rfl⟩

/-- C9 witness: a failing client at the initial state with a valid image and
one supply. -/
theorem c9_witness :
    generateHandler (failClient "rate limited") initialState (some [0, 1, 2])
        ["Sterile gauze pads"] "Home" "Non-healthcare professional" "Yes"
        "Daily" "No" "Dry"
      = submitSuccess initialState [0, 1, 2] ["Sterile gauze pads"] "Home"
          "Non-healthcare professional" "Yes" "Daily" "No" "Dry"
          ("⚠️ Error calling OpenAI API: " ++ "rate limited")
    ∧ generateHandler (okClient "fine") initialState (some [0, 1, 2])
        ["Sterile gauze pads"] "Home" "Non-healthcare professional" "Yes"
        "Daily" "No" "Dry"
      = submitSuccess initialState [0, 1, 2] ["Sterile gauze pads"] "Home"
          "Non-healthcare professional" "Yes" "Daily" "No" "Dry"
          (process_image (okClient "fine") [0, 1, 2] ["Sterile gauze pads"]
            "Home" "Non-healthcare professional" "Yes" "Daily" "No" "Dry") :=
  c9_failure_indistinguishable (failClient "rate limited") (okClient "fine")
    initialState [0, 1, 2] ["Sterile gauze pads"] "Home"
    "Non-healthcare professional" "Yes" "Daily" "No" "Dry" "rate limited"
    (by decide) rfl

/-- C10: when the follow-up call raises with message `e`, the Ask handler
leaves the whole session state (in particular `conversation_history`)
exactly as it was, renders only the error string, no warning, and does not
rerun: the failed question/answer pair is never appended (app.py lines
403-450). -/
theorem c10_followup_failure_atomic (client : Client) (st : SessionState)
    (assessment q e : String)
    (h1 : pyStrip q ≠ "")
    (h2 : client (followRequest (followContent
        (buildContext assessment st.conversation_history) q))
      = Except.error e) :
    (askHandler client st assessment q).state = st
    ∧ (askHandler client st assessment q).errors
      = ["⚠️ Error calling OpenAI API: " ++ e]
    ∧ (askHandler client st assessment q).warnings = []
    ∧ (askHandler client st assessment q).rerun = false := by
  have hq : q ≠ "" := by
    intro hqe
    rw [hqe] at h1
    exact h1 rfl
  refine ⟨?_, ?_, ?_, ?_⟩ <;> simp [askHandler, hq, h1, h2]

/-- C10 witness: a failing client on a concrete follow-up over one stored
exchange. -/
theorem c10_witness :
    (askHandler (failClient "timeout") wResultsState "1. Clean the wound."
        "Should I cover it?").state = wResultsState
    ∧ (askHandler (failClient "timeout") wResultsState "1. Clean the wound."
        "Should I cover it?").errors
      = ["⚠️ Error calling OpenAI API: " ++ "timeout"]
    ∧ (askHandler (failClient "timeout") wResultsState "1. Clean the wound."
        "Should I cover it?").warnings = []
    ∧ (askHandler (failClient "timeout") wResultsState "1. Clean the wound."
        "Should I cover it?").rerun = false :=
  c10_followup_failure_atomic (failClient "timeout") wResultsState
    "1. Clean the wound." "Should I cover it?" "timeout" (by decide) rfl

/-- C7: while `terms_accepted` is false, a run of the script shows the terms
page and reaches neither the input-page nor the results-page logic; it
either stops or (on accept) reruns, the only possible state change is the
`terms_accepted` flag itself (page, assessment, history, and widget values
are untouched), and the outcome never depends on the remote client
(app.py lines 141-144). -/
theorem c7_terms_gate (client c₂ : Client) (st : SessionState) (ev : UiEvent)
    (h : st.terms_accepted = false) :
    (runScript client st ev).shownTerms = true
    ∧ (runScript client st ev).ranInputPage = false
    ∧ (runScript client st ev).ranResultsPage = false
    ∧ (runScript client st ev).state.current_page = st.current_page
    ∧ (runScript client st ev).state.assessment_data = st.assessment_data
    ∧ (runScript client st ev).state.conversation_history
      = st.conversation_history
    ∧ (runScript client st ev).state.widget_state = st.widget_state
    ∧ ((runScript client st ev).stopped = true
        ∨ (runScript client st ev).rerun = true)
    ∧ runScript c₂ st ev = runScript client st ev := by
  cases ev <;> simp [runScript, h]

/-- C7 witness: an attempt to submit an assessment while the terms are still
unaccepted, at the initial state. -/
theorem c7_witness :
    (runScript (okClient "mock") initialState
        (UiEvent.generate (some [0, 1, 2]) ["Bandage"] "Home"
          "Non-healthcare professional" "Yes" "Daily" "No" "Dry")).shownTerms
      = true
    ∧ (runScript (okClient "mock") initialState
        (UiEvent.generate (some [0, 1, 2]) ["Bandage"] "Home"
          "Non-healthcare professional" "Yes" "Daily" "No"
          "Dry")).ranInputPage = false
    ∧ (runScript (okClient "mock") initialState
        (UiEvent.generate (some [0, 1, 2]) ["Bandage"] "Home"
          "Non-healthcare professional" "Yes" "Daily" "No"
          "Dry")).ranResultsPage = false
    ∧ (runScript (okClient "mock") initialState
        (UiEvent.generate (some [0, 1, 2]) ["Bandage"] "Home"
          "Non-healthcare professional" "Yes" "Daily" "No"
          "Dry")).state.current_page = initialState.current_page
    ∧ (runScript (okClient "mock") initialState
        (UiEvent.generate (some [0, 1, 2]) ["Bandage"] "Home"
          "Non-healthcare professional" "Yes" "Daily" "No"
          "Dry")).state.assessment_data = initialState.assessment_data
    ∧ (runScript (okClient "mock") initialState
        (UiEvent.generate (some [0, 1, 2]) ["Bandage"] "Home"
          "Non-healthcare professional" "Yes" "Daily" "No"
          "Dry")).state.conversation_history
      = initialState.conversation_history
    ∧ (runScript (okClient "mock") initialState
        (UiEvent.generate (some [0, 1, 2]) ["Bandage"] "Home"
          "Non-healthcare professional" "Yes" "Daily" "No"
          "Dry")).state.widget_state = initialState.widget_state
    ∧ ((runScript (okClient "mock") initialState
        (UiEvent.generate (some [0, 1, 2]) ["Bandage"] "Home"
          "Non-healthcare professional" "Yes" "Daily" "No"
          "Dry")).stopped = true
        ∨ (runScript (okClient "mock") initialState
            (UiEvent.generate (some [0, 1, 2]) ["Bandage"] "Home"
              "Non-healthcare professional" "Yes" "Daily" "No"
              "Dry")).rerun = true)
    ∧ runScript (failClient "boom") initialState
        (UiEvent.generate (some [0, 1, 2]) ["Bandage"] "Home"
          "Non-healthcare professional" "Yes" "Daily" "No" "Dry")
      = runScript (okClient "mock") initialState
          (UiEvent.generate (some [0, 1, 2]) ["Bandage"] "Home"
            "Non-healthcare professional" "Yes" "Daily" "No" "Dry") :=
  c7_terms_gate (okClient "mock") (failClient "boom") initialState
    (UiEvent.generate (some [0, 1, 2]) ["Bandage"] "Home"
      "Non-healthcare professional" "Yes" "Daily" "No" "Dry") rfl

/-- C8: on the results page, the Back to Input click sets `current_page` to
`"input"` and requests a rerun, leaving the stored widget values (the form
selections), the assessment data, and the conversation history untouched,
so the form stays pre-filled (app.py lines 325-330 write only
`current_page`). -/
theorem c8_back_keeps_form (client : Client) (st : SessionState)
    (h1 : st.terms_accepted = true) (h2 : st.current_page = "results") :
    (runScript client st UiEvent.back).state.current_page = "input"
    ∧ (runScript client st UiEvent.back).state.widget_state = st.widget_state
    ∧ (runScript client st UiEvent.back).state.assessment_data
      = st.assessment_data
    ∧ (runScript client st UiEvent.back).state.conversation_history
      = st.conversation_history
    ∧ (runScript client st UiEvent.back).rerun = true := by
  simp [runScript, h1, h2]

/-- C8 witness: clicking Back to Input at a concrete results-page state with
stored form selections. -/
theorem c8_witness :
    (runScript (okClient "mock") wResultsState UiEvent.back).state.current_page
      = "input"
    ∧ (runScript (okClient "mock") wResultsState
        UiEvent.back).state.widget_state = wResultsState.widget_state
    ∧ (runScript (okClient "mock") wResultsState
        UiEvent.back).state.assessment_data = wResultsState.assessment_data
    ∧ (runScript (okClient "mock") wResultsState
        UiEvent.back).state.conversation_history
      = wResultsState.conversation_history
    ∧ (runScript (okClient "mock") wResultsState UiEvent.back).rerun = true :=
  c8_back_keeps_form (okClient "mock") wResultsState rfl rfl
